import Mathlib

/-!
Shallow embedding of `src/LinuxThread.h` (namespace `rau`): the thread-identity
value type `LinuxThread::id`, the move-only handle `LinuxThread`, and the
`std::hash` specialization.  The platform threading primitives (`pthread_t`,
`pthread_equal`, `pthread_create`, `pthread_join`, `pthread_detach`, libc
`strerror`, machine memory) are modelled explicitly: on Linux/glibc LP64,
`pthread_t` and `size_t` are both `unsigned long`, modelled as `Nat` (no value
in this development approaches 2^64, so no wraparound arises).
-/

namespace rau

/-- `using native_handle_type = pthread_t;` — on Linux, `pthread_t` is
`unsigned long`, modelled as `Nat`. -/
abbrev native_handle_type := Nat

/-- Platform collaborator `pthread_equal(t1, t2)`: returns nonzero iff the two
native identifiers denote the same thread; on Linux/glibc this is plain value
equality of the `unsigned long` identifiers. -/
def pthread_equal (t1 t2 : native_handle_type) : Nat :=
  if t1 = t2 then 1 else 0

/-- Platform collaborator libc `strerror`: maps an error number to its Linux
description.  Only the codes this development touches are spelled out. -/
def strerror (e : Nat) : String :=
  match e with
  | 0 => "Success"
  | 1 => "Operation not permitted"
  | 11 => "Resource temporarily unavailable"
  | 12 => "Cannot allocate memory"
  | 22 => "Invalid argument"
  | _ => "Unknown error"

/-- `class LinuxThread::id` (src/LinuxThread.h lines 27-72): a single member
`native_handle_type m_threadID{0ull};` — default-constructed to the sentinel
value 0. -/
structure Id where
  m_threadID : native_handle_type := 0
  deriving DecidableEq, Repr

/-- `operator==(id, id)` : `0 != pthread_equal(lhs.m_threadID, rhs.m_threadID)`. -/
def idEq (lhs rhs : Id) : Bool :=
  pthread_equal lhs.m_threadID rhs.m_threadID != 0

/-- `operator!=(id, id)` : `!(lhs == rhs)`. -/
def idNe (lhs rhs : Id) : Bool :=
  !(idEq lhs rhs)

/-- `operator<(id, id)` : `lhs.m_threadID < rhs.m_threadID`. -/
def idLt (lhs rhs : Id) : Bool :=
  decide (lhs.m_threadID < rhs.m_threadID)

/-- `operator>(id, id)` : `rhs < lhs`. -/
def idGt (lhs rhs : Id) : Bool :=
  idLt rhs lhs

/-- `operator<=(id, id)` : `!(lhs > rhs)`. -/
def idLe (lhs rhs : Id) : Bool :=
  !(idGt lhs rhs)

/-- `operator>=(id, id)` : `!(lhs < rhs)`. -/
def idGe (lhs rhs : Id) : Bool :=
  !(idLt lhs rhs)

/-- `std::hash<rau::LinuxThread::id>::operator()` (src/LinuxThread.h lines
190-197): returns `id.m_threadID` converted to `size_t`; on LP64 Linux both
are `unsigned long`, so the conversion is the identity. -/
def hashId (i : Id) : Nat :=
  i.m_threadID

/-- `class LinuxThread`: the single data member `id m_ID;`, default-initialized
to the sentinel identity by the member initializer of `id`. -/
structure LinuxThread where
  m_ID : Id := {}
  deriving DecidableEq, Repr

/-- `get_id()` : returns `this->m_ID`. -/
def LinuxThread.get_id (t : LinuxThread) : Id :=
  t.m_ID

/-- `joinable()` : returns `!(m_ID == id())` (the trailing `return {};` in the
source is dead code after the first return). -/
def LinuxThread.joinable (t : LinuxThread) : Bool :=
  !(idEq t.m_ID {})

/-- `native_handle()` : `*reinterpret_cast<native_handle_type*>(&m_ID)` — reads
the bytes of `m_ID` as a `pthread_t`; since `id` is standard-layout with the
single member `m_threadID`, this yields `m_ID.m_threadID`. -/
def LinuxThread.native_handle (t : LinuxThread) : native_handle_type :=
  t.m_ID.m_threadID

/-- Calls the handle makes into the platform threading facility; recorded so
that theorems can state which primitive was reached and with which argument. -/
inductive PlatformCall where
  | joinCall (t : native_handle_type)
  | detachCall (t : native_handle_type)
  deriving DecidableEq, Repr

/-- `join()` (src/LinuxThread.h lines 160-172): if `joinable()`, call
`pthread_join(native_handle(), nullptr)` and reset `m_ID = id{}`; otherwise do
nothing.  Returns the post-state and the platform calls performed. -/
def LinuxThread.join (t : LinuxThread) : LinuxThread × List PlatformCall :=
  if t.joinable then ({ m_ID := {} }, [PlatformCall.joinCall t.native_handle])
  else (t, [])

/-- `detach()` (src/LinuxThread.h lines 174-181): unconditionally calls
`pthread_detach(native_handle())` and resets `m_ID = id{}` — no guard for the
empty-handle case.  Returns the post-state and the platform calls performed. -/
def LinuxThread.detach (t : LinuxThread) : LinuxThread × List PlatformCall :=
  ({ m_ID := {} }, [PlatformCall.detachCall t.native_handle])

/-- Outcome of running `~LinuxThread()`. -/
inductive DtorOutcome where
  | processTerminated
  | completedNoEffect
  deriving DecidableEq, Repr

/-- `~LinuxThread()` (src/LinuxThread.h lines 113-123): calls
`std::terminate()` if `joinable()`; otherwise the destructor has no effect. -/
def LinuxThread.runDtor (t : LinuxThread) : DtorOutcome :=
  if t.joinable then DtorOutcome.processTerminated else DtorOutcome.completedNoEffect

/-- Outcome of move assignment: either the process terminated, or the
assignment completed with the given post-states of destination and source. -/
inductive MoveAssignOutcome where
  | processTerminated
  | assigned (dst src : LinuxThread)
  deriving DecidableEq, Repr

/-- `operator=(LinuxThread&&)` (src/LinuxThread.h lines 125-136): despite the
misleading indentation the statement structure is: if `joinable()` then
`std::terminate()`; then (unreachable after terminate) unconditionally
`std::swap(m_ID, other.m_ID)` and return.  So: destination joinable ⇒
terminate; otherwise the two `m_ID` fields are swapped. -/
def LinuxThread.moveAssign (t other : LinuxThread) : MoveAssignOutcome :=
  if t.joinable then MoveAssignOutcome.processTerminated
  else MoveAssignOutcome.assigned { m_ID := other.m_ID } { m_ID := t.m_ID }

/-- `LinuxThread(LinuxThread&& other)` (src/LinuxThread.h lines 103-109): the
new object's `m_ID` is default-initialized to the sentinel, then
`std::swap(m_ID, other.m_ID)`: the new object takes `other`'s identity and
`other` is left with the sentinel.  Returns (new object, post-state of other). -/
def LinuxThread.moveConstruct (other : LinuxThread) : LinuxThread × LinuxThread :=
  ({ m_ID := other.m_ID }, { m_ID := {} })

/-- Platform behaviour presented to one run of the callable constructor:
the return value of `pthread_create`, the native id it stores through its
first argument on success, the thread-local `errno` value at the point of the
`strerror(errno)` call, and the machine word readable at a given address
(needed because the source dereferences the native id as a pointer). -/
structure CreateEnv where
  createResult : Nat
  createdId : native_handle_type
  errnoVal : Nat
  memWord : Nat → Nat

/-- Result of running the callable constructor: either a constructed handle,
or process termination — the constructor is declared `noexcept`, so the
`throw std::runtime_error{strerror(errno)}` on the failure path calls
`std::terminate`; the message the discarded exception carried is recorded. -/
inductive CtorResult where
  | ok (t : LinuxThread)
  | terminatedWithMsg (msg : String)

/-- Observable outcome of `LinuxThread(Callable&&, Args&&...)`:
`wrapperFreedHere` records the failure-path `delete wrapper;` (on success the
record's ownership passes to the started thread routine), `threadStarted`
records whether `pthread_create` started a thread. -/
structure CtorOutcome where
  result : CtorResult
  wrapperFreedHere : Bool
  threadStarted : Bool

/-- `LinuxThread(Callable&& c, Args&&... args) noexcept` (src/LinuxThread.h
lines 86-101): allocates the closure record, calls `pthread_create`; if the
result is nonzero, `delete wrapper; throw std::runtime_error{strerror(errno)};`
— and the `noexcept` turns the throw into `std::terminate`.  On success it
executes `m_ID = *reinterpret_cast<id*>(temp_id);` — note: no address-of, so
the new native id `temp_id` is itself treated as an address and the id-sized
word stored there is read into `m_ID`. -/
def constructWithCallable (env : CreateEnv) : CtorOutcome :=
  if env.createResult != 0 then
    { result := CtorResult.terminatedWithMsg (strerror env.errnoVal)
      wrapperFreedHere := true
      threadStarted := false }
  else
    { result := CtorResult.ok { m_ID := { m_threadID := env.memWord env.createdId } }
      wrapperFreedHere := false
      threadStarted := true }

/-! ### Helper lemmas -/

/-- `idEq` is value equality of the underlying native identifiers. -/
theorem idEq_eq_true_iff (a b : Id) :
    idEq a b = true ↔ a.m_threadID = b.m_threadID := by
  unfold idEq pthread_equal
  by_cases h : a.m_threadID = b.m_threadID <;> simp [h]

/-- A handle that is not joinable holds exactly the sentinel identity. -/
theorem m_ID_default_of_not_joinable (h : LinuxThread) (hj : h.joinable = false) :
    h.m_ID = ({} : Id) := by
  obtain ⟨⟨n⟩⟩ := h
  by_cases hn : n = 0
  · subst hn; rfl
  · exfalso
    have ht : LinuxThread.joinable ⟨⟨n⟩⟩ = true := by
      simp [LinuxThread.joinable, idEq, pthread_equal, hn]
    rw [ht] at hj
    exact Bool.true_eq_false.mp hj

/-- A handle whose identity is the sentinel is not joinable. -/
theorem joinable_false_of_default (h : LinuxThread) (hid : h.get_id = ({} : Id)) :
    h.joinable = false := by
  obtain ⟨⟨n⟩⟩ := h
  have hn : n = 0 := congrArg Id.m_threadID hid
  subst hn
  rfl

/-! ### Claim theorems -/

/-- C3: for every handle h, `h.joinable()` is true iff `h.get_id()` differs
from the default (sentinel) identity; in particular a default-constructed
handle has `joinable() == false` and `get_id() == id()`. -/
theorem c3_joinable_iff_id_ne_default (h : LinuxThread) :
    (h.joinable = true ↔ h.get_id ≠ ({} : Id)) ∧
    ({} : LinuxThread).joinable = false ∧
    ({} : LinuxThread).get_id = ({} : Id) := by
  refine ⟨?_, rfl, rfl⟩
  obtain ⟨⟨n⟩⟩ := h
  simp only [LinuxThread.joinable, LinuxThread.get_id]
  rw [Bool.not_eq_true', Bool.eq_false_iff]
  constructor
  · intro hne heq
    exact hne ((idEq_eq_true_iff _ _).mpr (congrArg Id.m_threadID heq))
  · intro hne heq
    exact hne (by cases ((idEq_eq_true_iff ⟨n⟩ {}).mp heq); rfl)

/-- C9: the comparison operators on the identity type form a total order
derived from the single primitive `<` on the underlying representation:
`a > b` iff `b < a`, `a <= b` iff not `a > b`, `a >= b` iff not `a < b`, and
for all a, b at least one of `a <= b` or `b <= a` holds. -/
theorem c9_id_comparisons_total_order (a b : Id) :
    idGt a b = idLt b a ∧
    idLe a b = !(idGt a b) ∧
    idGe a b = !(idLt a b) ∧
    (idLe a b = true ∨ idLe b a = true) := by
  refine ⟨rfl, rfl, rfl, ?_⟩
  unfold idLe idGt idLt
  by_cases h : a.m_threadID < b.m_threadID
  · left
    simp [Nat.lt_asymm h]
  · right
    simp [h]

/-- C10: the hash of an identity is its raw underlying native identifier: it
is deterministic (equal underlying representation gives equal hashes) and the
default-constructed sentinel identity hashes to 0. -/
theorem c10_hash_is_raw_value (a b : Id) :
    hashId a = a.m_threadID ∧
    (a.m_threadID = b.m_threadID → hashId a = hashId b) ∧
    hashId ({} : Id) = 0 :=
  ⟨rfl, fun hab => hab, rfl⟩

/-- C10 witness: concrete evaluation of the hash theorem at identity 42. -/
theorem c10_hash_is_raw_value_witness :
    hashId ⟨42⟩ = 42 ∧ hashId ⟨42⟩ = hashId ⟨42⟩ ∧ hashId ({} : Id) = 0 :=
  ⟨(c10_hash_is_raw_value ⟨42⟩ ⟨42⟩).1,
   (c10_hash_is_raw_value ⟨42⟩ ⟨42⟩).2.1 rfl,
   (c10_hash_is_raw_value ⟨42⟩ ⟨42⟩).2.2⟩

/-- C4: `join()` on a non-joinable handle is a no-op — state unchanged and no
platform call made; on an owning handle it performs the platform join on the
owned thread and transitions the handle to empty (sentinel id, not joinable). -/
theorem c4_join_noop_or_join_and_empty (h : LinuxThread) :
    (h.joinable = false → h.join = (h, [])) ∧
    (h.joinable = true →
      h.join = ({ m_ID := {} }, [PlatformCall.joinCall h.native_handle])) ∧
    ({ m_ID := {} } : LinuxThread).joinable = false ∧
    ({ m_ID := {} } : LinuxThread).get_id = ({} : Id) := by
  refine ⟨?_, ?_, rfl, rfl⟩
  · intro hj
    simp [LinuxThread.join, hj]
  · intro hj
    simp [LinuxThread.join, hj]

/-- C4 witness: the join theorem evaluated on the empty handle (no-op, no
platform call) and on the handle owning native thread 7 (platform join on 7,
then empty). -/
theorem c4_join_noop_or_join_and_empty_witness :
    ({} : LinuxThread).join = (({} : LinuxThread), []) ∧
    (⟨⟨7⟩⟩ : LinuxThread).join = (({} : LinuxThread), [PlatformCall.joinCall 7]) :=
  ⟨(c4_join_noop_or_join_and_empty {}).1 rfl,
   (c4_join_noop_or_join_and_empty ⟨⟨7⟩⟩).2.1 rfl⟩

/-- C5: destroying a handle that is owning (`joinable() == true`) terminates
the process; destroying an empty handle (sentinel identity) completes with no
effect. -/
theorem c5_destructor_terminates_or_noop (h : LinuxThread) :
    (h.joinable = true → h.runDtor = DtorOutcome.processTerminated) ∧
    (h.get_id = ({} : Id) → h.runDtor = DtorOutcome.completedNoEffect) := by
  constructor
  · intro hj
    simp [LinuxThread.runDtor, hj]
  · intro hid
    simp [LinuxThread.runDtor, joinable_false_of_default h hid]

/-- C5 witness: the destructor theorem evaluated on the handle owning native
thread 3 (terminates) and on the empty handle (no effect). -/
theorem c5_destructor_terminates_or_noop_witness :
    (⟨⟨3⟩⟩ : LinuxThread).runDtor = DtorOutcome.processTerminated ∧
    ({} : LinuxThread).runDtor = DtorOutcome.completedNoEffect :=
  ⟨(c5_destructor_terminates_or_noop ⟨⟨3⟩⟩).1 rfl,
   (c5_destructor_terminates_or_noop {}).2 rfl⟩

/-- C6: move assignment onto a destination that is owning terminates the
process; otherwise the destination takes the source's identity and the source
is left empty (the swap hands the destination's sentinel to the source). -/
theorem c6_moveAssign_abort_or_transfer (dst src : LinuxThread) :
    (dst.joinable = true →
      LinuxThread.moveAssign dst src = MoveAssignOutcome.processTerminated) ∧
    (dst.joinable = false →
      LinuxThread.moveAssign dst src =
        MoveAssignOutcome.assigned { m_ID := src.get_id } ({} : LinuxThread)) := by
  constructor
  · intro hj
    simp [LinuxThread.moveAssign, hj]
  · intro hj
    simp [LinuxThread.moveAssign, hj, m_ID_default_of_not_joinable dst hj,
      LinuxThread.get_id]

/-- C6 witness: the move-assignment theorem evaluated with owning destination
(native thread 5) — terminates — and with empty destination and source owning
native thread 9 — identity 9 transferred, source left empty. -/
theorem c6_moveAssign_abort_or_transfer_witness :
    LinuxThread.moveAssign ⟨⟨5⟩⟩ ⟨⟨9⟩⟩ = MoveAssignOutcome.processTerminated ∧
    LinuxThread.moveAssign {} ⟨⟨9⟩⟩ =
      MoveAssignOutcome.assigned ⟨⟨9⟩⟩ ({} : LinuxThread) :=
  ⟨(c6_moveAssign_abort_or_transfer ⟨⟨5⟩⟩ ⟨⟨9⟩⟩).1 rfl,
   (c6_moveAssign_abort_or_transfer {} ⟨⟨9⟩⟩).2 rfl⟩

/-- C7: move construction from a handle A yields a new handle with A's
pre-move identity — joinable whenever A was — and leaves A empty (sentinel
identity, not joinable). -/
theorem c7_moveConstruct_transfers (a : LinuxThread) :
    (a.joinable = true → (LinuxThread.moveConstruct a).1.joinable = true) ∧
    (LinuxThread.moveConstruct a).1.get_id = a.get_id ∧
    (LinuxThread.moveConstruct a).2.joinable = false ∧
    (LinuxThread.moveConstruct a).2.get_id = ({} : Id) :=
  ⟨fun hj => hj, rfl, rfl, rfl⟩

/-- C7 witness: the move-construction theorem evaluated on the handle owning
native thread 4. -/
theorem c7_moveConstruct_transfers_witness :
    (LinuxThread.moveConstruct ⟨⟨4⟩⟩).1.joinable = true ∧
    (LinuxThread.moveConstruct ⟨⟨4⟩⟩).1.get_id = (⟨⟨4⟩⟩ : LinuxThread).get_id ∧
    (LinuxThread.moveConstruct ⟨⟨4⟩⟩).2.joinable = false :=
  ⟨(c7_moveConstruct_transfers ⟨⟨4⟩⟩).1 rfl,
   (c7_moveConstruct_transfers ⟨⟨4⟩⟩).2.1,
   (c7_moveConstruct_transfers ⟨⟨4⟩⟩).2.2.1⟩

/-- C8: `detach()` transitions any handle to empty immediately and always
performs the platform detach call with `native_handle()` — there is no guard,
so on a non-owning handle the platform primitive is reached with the sentinel
value 0. -/
theorem c8_detach_unguarded (h : LinuxThread) :
    h.detach = (({} : LinuxThread), [PlatformCall.detachCall h.native_handle]) ∧
    ({} : LinuxThread).joinable = false ∧
    ({} : LinuxThread).get_id = ({} : Id) ∧
    (h.joinable = false → (h.detach).2 = [PlatformCall.detachCall 0]) := by
  refine ⟨rfl, rfl, rfl, fun hj => ?_⟩
  simp [LinuxThread.detach, LinuxThread.native_handle,
    m_ID_default_of_not_joinable h hj]

/-- C8 witness: the detach theorem evaluated on the empty handle — the
platform detach primitive is reached with the sentinel value 0 and the handle
stays empty. -/
theorem c8_detach_unguarded_witness :
    ({} : LinuxThread).detach = (({} : LinuxThread), [PlatformCall.detachCall 0]) ∧
    (({} : LinuxThread).detach).2 = [PlatformCall.detachCall 0] :=
  ⟨(c8_detach_unguarded {}).1, (c8_detach_unguarded {}).2.2.2 rfl⟩

/-- Failure scenario for the callable constructor: `pthread_create` refuses
with EAGAIN (return value 11) and therefore stores nothing through its first
argument, while the thread-local `errno` still holds 0 — POSIX specifies that
`pthread_create` reports its error through the return value and does not set
`errno`. -/
def createFailEnv : CreateEnv :=
  { createResult := 11
    createdId := 0
    errnoVal := 0
    memWord := fun _ => 0 }

/-- C1: at a creation failure (pthread_create returns EAGAIN = 11 with
thread-local errno 0) the closure record is freed and no thread is started,
but the runtime_error the code builds carries `strerror(errno)` = "Success" —
not the description of the failing create call — and, the constructor being
`noexcept`, the throw terminates the process instead of surfacing a
construction failure to the caller. -/
theorem c1_create_failure_behavior :
    (constructWithCallable createFailEnv).wrapperFreedHere = true ∧
    (constructWithCallable createFailEnv).threadStarted = false ∧
    (constructWithCallable createFailEnv).result =
      CtorResult.terminatedWithMsg (strerror 0) ∧
    strerror 0 ≠ strerror createFailEnv.createResult := by
  refine ⟨rfl, rfl, rfl, ?_⟩
  intro hcontra
  simp [strerror, createFailEnv] at hcontra

/-- Success scenario for the callable constructor: `pthread_create` returns 0
and stores the new native id 4096 through its first argument, while the
machine word at address 4096 happens to hold 0.  The source then executes
`m_ID = *reinterpret_cast<id*>(temp_id);` — dereferencing the id value itself
as an address. -/
def createOkEnv : CreateEnv :=
  { createResult := 0
    createdId := 4096
    errnoVal := 0
    memWord := fun _ => 0 }

/-- C2: when pthread_create succeeds with native id t = 4096 but the machine
word at address 4096 holds 0, the constructor stores that dereferenced word
(0), not t: the resulting handle's underlying id differs from t and the
handle is not even joinable, although a thread was started. -/
theorem c2_create_success_stores_word_at_address :
    (constructWithCallable createOkEnv).threadStarted = true ∧
    (constructWithCallable createOkEnv).result =
      CtorResult.ok { m_ID := { m_threadID := 0 } } ∧
    ({ m_ID := { m_threadID := 0 } } : LinuxThread).get_id.m_threadID ≠
      createOkEnv.createdId ∧
    ({ m_ID := { m_threadID := 0 } } : LinuxThread).joinable = false := by
  refine ⟨rfl, rfl, ?_, rfl⟩
  intro hcontra
  simp [LinuxThread.get_id, createOkEnv] at hcontra

end rau
